import Mathlib

/-!
Shallow embedding of the AUnit test-lifecycle core (src/aunit/Test.h and
src/aunit/MetaAssertion.h) and proofs about the spec's claims.

The `Test` structure mirrors the fields of `class Test`; member functions are
translated to pure functions taking the receiver state and returning the
updated state.  The registry and the `maxLength` static member are carried in
a `GlobalState`.  The verbosity mask (`Verbosity`, a `uint8_t` bitmask) is
modelled as a `Nat` below 256 with `kNone = 0`.
-/

namespace AUnit

/-- Source: `Test::LifeCycle` from Test.h. -/
inductive LifeCycle where
  | New
  | Excluded
  | Setup
  | Asserted
  | Finished
deriving DecidableEq, Repr

/-- Source: `Test::Status` from Test.h. -/
inductive Status where
  | Unknown
  | Passed
  | Failed
  | Skipped
  | Expired
deriving DecidableEq, Repr

/-- The per-instance fields of `class Test` (the intrusive `mNext` link is
modelled by the registry list in `GlobalState` instead of a raw pointer). -/
structure Test where
  mName : String
  mLifeCycle : LifeCycle
  mStatus : Status
  mVerbosity : Nat
deriving DecidableEq, Repr

namespace Test

/-- Source: `Test::getLifeCycle`. -/
def getLifeCycle (t : Test) : LifeCycle := t.mLifeCycle

/-- Source: `Test::setLifeCycle`. -/
def setLifeCycle (t : Test) (state : LifeCycle) : Test :=
  { t with mLifeCycle := state }

/-- Source: `Test::getStatus`. -/
def getStatus (t : Test) : Status := t.mStatus

/-- Source: `Test::setStatus`: if the status is not `Unknown`, force the life cycle
to `Asserted`, then assign the status field. -/
def setStatus (t : Test) (status : Status) : Test :=
  let t1 := if status ≠ Status.Unknown then t.setLifeCycle LifeCycle.Asserted else t
  { t1 with mStatus := status }

/-- Source: `Test::skip`. -/
def skip (t : Test) : Test := t.setStatus Status.Skipped

/-- Source: `Test::expire`. -/
def expire (t : Test) : Test := t.setStatus Status.Expired

/-- Source: `Test::fail`. -/
def fail (t : Test) : Test := t.setStatus Status.Failed

/-- Source: `Test::pass`. -/
def pass (t : Test) : Test := t.setStatus Status.Passed

/-- Modelled from the spec: the body of `Test::setPassOrFail` lives in
Test.cpp, which is not part of this excerpt; the spec says it is a
"convenience that maps `ok` to `Passed`/`Failed` through `setStatus`". -/
def setPassOrFail (t : Test) (ok : Bool) : Test :=
  t.setStatus (if ok then Status.Passed else Status.Failed)

/-- Source: `Test::isDone`. -/
def isDone (t : Test) : Bool := t.mStatus ≠ Status.Unknown

/-- Source: `Test::isNotDone`. -/
def isNotDone (t : Test) : Bool := !t.isDone

/-- Source: `Test::isPassed`. -/
def isPassed (t : Test) : Bool := t.mStatus = Status.Passed

/-- Source: `Test::isNotPassed`. -/
def isNotPassed (t : Test) : Bool := !t.isPassed

/-- Source: `Test::isFailed`. -/
def isFailed (t : Test) : Bool := t.mStatus = Status.Failed

/-- Source: `Test::isNotFailed`. -/
def isNotFailed (t : Test) : Bool := !t.isFailed

/-- Source: `Test::isSkipped`. -/
def isSkipped (t : Test) : Bool := t.mStatus = Status.Skipped

/-- Source: `Test::isNotSkipped`. -/
def isNotSkipped (t : Test) : Bool := !t.isSkipped

/-- Source: `Test::isExpired`. -/
def isExpired (t : Test) : Bool := t.mStatus = Status.Expired

/-- Source: `Test::isNotExpired`. -/
def isNotExpired (t : Test) : Bool := !t.isExpired

/-- Source: `Test::enableVerbosity`: `mVerbosity |= verbosity`. -/
def enableVerbosity (t : Test) (verbosity : Nat) : Test :=
  { t with mVerbosity := t.mVerbosity ||| verbosity }

/-- Source: `Test::disableVerbosity`: `mVerbosity &= ~verbosity`, where `~` is the
8-bit complement of the `uint8_t`-backed `Verbosity` mask. -/
def disableVerbosity (t : Test) (verbosity : Nat) : Test :=
  { t with mVerbosity := t.mVerbosity &&& (255 ^^^ verbosity) }

/-- Source: `Test::isVerbosity`. -/
def isVerbosity (t : Test) (verbosity : Nat) : Bool :=
  t.mVerbosity &&& verbosity ≠ 0

/-- Source: `Test::getVerbosity`. -/
def getVerbosity (t : Test) : Nat := t.mVerbosity

end Test

/-- The global statics of Test.h: the `maxLength` static member and the
registry rooted at `Test::getRoot()` (kept in construction order). -/
structure GlobalState where
  maxLength : Nat
  root : List Test
deriving Repr

/-- The initial global state.  `maxLength` is a static-storage `size_t`
defined in Test.cpp (not part of this excerpt); static storage is
zero-initialized, and the spec's tracker scenario assumes the same start. -/
def initialGlobalState : GlobalState := { maxLength := 0, root := [] }

/-- Source: `Test::init(const char*)`: updates `maxLength` to the max of itself and
`strlen(name)`, initializes the fields, and inserts into the registry.
`Test::insert` itself is defined in Test.cpp, which is not part of this
excerpt; modelled from the spec, which requires registration to preserve
construction order, it appends the test at the iteration-order end. -/
def Test.init (g : GlobalState) (name : String) : GlobalState × Test :=
  let maxLength := Nat.max g.maxLength name.length
  let t : Test :=
    { mName := name
      mLifeCycle := LifeCycle.New
      mStatus := Status.Unknown
      mVerbosity := 0 }
  ({ maxLength := maxLength, root := g.root ++ [t] }, t)

/-- Modelled from the spec: the exclude operation (performed by the external
runner, which is not part of this excerpt) moves a test to `Excluded`
through `Test::setLifeCycle`. -/
def exclude (t : Test) : Test := t.setLifeCycle LifeCycle.Excluded

/-- Modelled from the spec: the include operation (performed by the external
runner, which is not part of this excerpt) puts the test back into the `New`
state through `Test::setLifeCycle`. -/
def includeTest (t : Test) : Test := t.setLifeCycle LifeCycle.New

/-- One public operation on a single test, as enumerated by the spec's
invariant claim. -/
inductive TestOp where
  | opSetStatus (s : Status)
  | opSetLifeCycle (lc : LifeCycle)
  | opSetPassOrFail (ok : Bool)
  | opPass
  | opFail
  | opSkip
  | opExpire
  | opExclude
  | opInclude
deriving DecidableEq, Repr

/-- Apply one public operation to a test. -/
def applyOp (t : Test) : TestOp → Test
  | TestOp.opSetStatus s => t.setStatus s
  | TestOp.opSetLifeCycle lc => t.setLifeCycle lc
  | TestOp.opSetPassOrFail ok => t.setPassOrFail ok
  | TestOp.opPass => t.pass
  | TestOp.opFail => t.fail
  | TestOp.opSkip => t.skip
  | TestOp.opExpire => t.expire
  | TestOp.opExclude => exclude t
  | TestOp.opInclude => includeTest t

/-- Apply a sequence of public operations, left to right. -/
def applyOps (t : Test) (ops : List TestOp) : Test := ops.foldl applyOp t

/-- The spec's biconditional invariant:
`status != Unknown` iff `lifeCycle == Asserted`. -/
def testInvariant (t : Test) : Prop :=
  t.mStatus ≠ Status.Unknown ↔ t.mLifeCycle = LifeCycle.Asserted

instance (t : Test) : Decidable (testInvariant t) := by
  unfold testInvariant; infer_instance

/-- The transitions the spec sanctions: `setStatus` only with a non-`Unknown`
argument (the spec forbids explicit `Unknown`), no raw `setLifeCycle`
(the driver-owned life-cycle moves are outside the claim once restricted),
exclude only from `New`, include only from `Excluded` (the spec's
`New → Excluded → New` edges), and the self-report conveniences freely. -/
def supportedOp (t : Test) : TestOp → Bool
  | TestOp.opSetStatus s => s ≠ Status.Unknown
  | TestOp.opSetLifeCycle _ => false
  | TestOp.opSetPassOrFail _ => true
  | TestOp.opPass => true
  | TestOp.opFail => true
  | TestOp.opSkip => true
  | TestOp.opExpire => true
  | TestOp.opExclude => t.mLifeCycle = LifeCycle.New
  | TestOp.opInclude => t.mLifeCycle = LifeCycle.Excluded

/-- A sequence of operations each of which is sanctioned in the state where
it runs. -/
def supportedSeq (t : Test) : List TestOp → Bool
  | [] => true
  | op :: ops => supportedOp t op && supportedSeq (applyOp t op) ops

/-! The meta-assertion layer of MetaAssertion.h.  The `checkTestXxx` macros
expand to a read of the named instance; the `assertTestXxx` macros expand to
`assertTestStatus(name, method, message)`, i.e.
`if (!assertionTestStatus(__FILE__, __LINE__, #name, message, instance.method())) return;`. -/

/-- Source: `checkTestDone(name)`: `test_name_instance.isDone()`. -/
def checkTestDone (t : Test) : Bool := t.isDone

/-- Source: `checkTestNotDone(name)`: `test_name_instance.isNotDone()`. -/
def checkTestNotDone (t : Test) : Bool := t.isNotDone

/-- Source: `checkTestPass(name)`: `test_name_instance.isPassed()`. -/
def checkTestPass (t : Test) : Bool := t.isPassed

/-- Source: `checkTestNotPass(name)`: `test_name_instance.isNotPassed()`. -/
def checkTestNotPass (t : Test) : Bool := t.isNotPassed

/-- Source: `checkTestFail(name)`: `test_name_instance.isFailed()`. -/
def checkTestFail (t : Test) : Bool := t.isFailed

/-- Source: `checkTestNotFail(name)`: `test_name_instance.isNotFailed()`. -/
def checkTestNotFail (t : Test) : Bool := t.isNotFailed

/-- Source: `checkTestSkip(name)`: `test_name_instance.isSkipped()`. -/
def checkTestSkip (t : Test) : Bool := t.isSkipped

/-- Source: `checkTestNotSkip(name)`: `test_name_instance.isNotSkipped()`. -/
def checkTestNotSkip (t : Test) : Bool := t.isNotSkipped

/-- Source: `checkTestExpire(name)`: `test_name_instance.isExpired()`. -/
def checkTestExpire (t : Test) : Bool := t.isExpired

/-- Source: `checkTestNotExpire(name)`: `test_name_instance.isNotExpired()`. -/
def checkTestNotExpire (t : Test) : Bool := t.isNotExpired

/-- One diagnostic line emitted by a failed meta-assertion: the caller's
source location, the target test's name, and the expected-condition
message. -/
structure Diag where
  file : String
  line : Nat
  testName : String
  message : String
deriving DecidableEq, Repr

/-- The state a test body runs in: the calling test's own fields plus the
diagnostic output emitted so far. -/
structure MetaState where
  caller : Test
  output : List Diag
deriving DecidableEq, Repr

/-- Modelled from the spec: the body of `MetaAssertion::assertionTestStatus`
lives in MetaAssertion.cpp, which is not part of this excerpt.  Per the
spec, when `ok` is false it emits a diagnostic identifying the caller's
location, the target test's name and the expected-condition message, and
marks the calling test's own status as `Failed` via `setStatus`; it returns
`ok` so the `assertTestStatus` macro can decide whether to return early. -/
def assertionTestStatus (st : MetaState) (file : String) (line : Nat)
    (testName : String) (statusMessage : String) (ok : Bool) :
    MetaState × Bool :=
  if ok then
    (st, true)
  else
    ({ caller := st.caller.setStatus Status.Failed,
       output := st.output ++ [⟨file, line, testName, statusMessage⟩] },
     false)

/-- One statement of a test body: either the expansion of an
`assertTestXxx(name)` macro (caller location, the target instance, the
predicate method and its message constant), or any other statement,
abstracted as a state transformer. -/
inductive Stmt where
  | metaAssert (file : String) (line : Nat) (target : Test)
      (method : Test → Bool) (message : String)
  | action (f : MetaState → MetaState)

/-- Run a test body.  An `assertTestXxx` statement follows the
`assertTestStatus` macro: it calls `assertionTestStatus` on the target's
predicate value and, when that returns false, returns from the body
immediately, so the remaining statements never run. -/
def runBody (st : MetaState) : List Stmt → MetaState
  | [] => st
  | Stmt.metaAssert file line target method message :: rest =>
      let r := assertionTestStatus st file line target.mName message (method target)
      if r.2 then runBody r.1 rest else r.1
  | Stmt.action f :: rest => runBody (f st) rest

/-- Register a list of tests in declaration order (a run of construction-time
`Test::init` calls). -/
def registerAll (g : GlobalState) : List String → GlobalState
  | [] => g
  | n :: ns => registerAll (Test.init g n).1 ns

end AUnit

namespace AUnit

/-! Helper lemmas shared by the claim theorems. -/

/-- Helper: one sanctioned operation preserves the biconditional invariant. -/
theorem supportedOp_preserves_invariant (t : Test) (op : TestOp)
    (hinv : testInvariant t) (hop : supportedOp t op = true) :
    testInvariant (applyOp t op) := by
  cases op <;>
    simp_all [supportedOp, applyOp, testInvariant, Test.setStatus,
      Test.setLifeCycle, Test.setPassOrFail, Test.pass, Test.fail,
      Test.skip, Test.expire, exclude, includeTest]
  case opSetPassOrFail ok => cases ok <;> simp_all

/-- Helper: `List.foldl Nat.max` is invariant under permutation of the
list. -/
theorem foldl_max_perm {l1 l2 : List Nat} (h : l1.Perm l2) :
    ∀ a : Nat, l1.foldl Nat.max a = l2.foldl Nat.max a := by
  induction h with
  | nil => intro a; rfl
  | cons x _ ih => intro a; simpa using ih (Nat.max a x)
  | swap x y l =>
      intro a
      simp only [List.foldl]
      have : Nat.max (Nat.max a y) x = Nat.max (Nat.max a x) y := by
        show max (max a y) x = max (max a x) y
        rw [Nat.max_assoc, Nat.max_assoc, Nat.max_comm y x]
      rw [this]
  | trans _ _ ih1 ih2 => intro a; exact (ih1 a).trans (ih2 a)

/-- Helper: the `maxLength` tracker after registering a list of names is the
fold of `Nat.max` over the name lengths. -/
theorem registerAll_maxLength (ns : List String) :
    ∀ g : GlobalState,
      (registerAll g ns).maxLength =
        (ns.map String.length).foldl Nat.max g.maxLength := by
  induction ns with
  | nil => intro g; rfl
  | cons n ns ih => intro g; simpa [registerAll, Test.init] using ih _

/-- Helper: clearing the bits of `v` after setting them recovers `m` when no
bit of `v` was set in `m` (8-bit masks). -/
theorem lor_and_compl8 (m v : Nat) (hm : m < 256) (hv : v < 256)
    (h : m &&& v = 0) : (m ||| v) &&& (255 ^^^ v) = m := by
  apply Nat.eq_of_testBit_eq
  intro i
  have hbit : (m.testBit i && v.testBit i) = false := by
    have hb := congrArg (fun x => Nat.testBit x i) h
    simp only at hb
    rw [Nat.testBit_and, Nat.zero_testBit] at hb
    exact hb
  by_cases hi : i < 8
  · have h255 : Nat.testBit 255 i = true := by
      have : (255 : Nat) = 2 ^ 8 - 1 := by norm_num
      rw [this, Nat.testBit_two_pow_sub_one]
      simpa using hi
    simp only [Nat.testBit_and, Nat.testBit_or, Nat.testBit_xor, h255]
    cases hmi : m.testBit i <;> cases hvi : v.testBit i <;> simp_all
  · have hmi : m.testBit i = false := by
      apply Nat.testBit_lt_two_pow
      calc m < 256 := hm
        _ = 2 ^ 8 := by norm_num
        _ ≤ 2 ^ i := Nat.pow_le_pow_right (by norm_num) (Nat.le_of_not_lt hi)
    have hvi : v.testBit i = false := by
      apply Nat.testBit_lt_two_pow
      calc v < 256 := hv
        _ = 2 ^ 8 := by norm_num
        _ ≤ 2 ^ i := Nat.pow_le_pow_right (by norm_num) (Nat.le_of_not_lt hi)
    have h255 : Nat.testBit 255 i = false := by
      have : (255 : Nat) = 2 ^ 8 - 1 := by norm_num
      rw [this, Nat.testBit_two_pow_sub_one]
      simpa using hi
    simp [Nat.testBit_and, Nat.testBit_or, Nat.testBit_xor, hmi, hvi, h255]

/-- Claim C2: for every test `t` and status `s`, after `t.setStatus s` with
`s` not `Unknown` the test's life cycle is `Asserted` and its status is `s`;
and `setStatus` is the only path by which status leaves `Unknown`: `pass`,
`fail`, `skip`, `expire` and `setPassOrFail` are exactly `setStatus` at the
corresponding argument. -/
theorem C2_setStatus_only_path (t : Test) (s : Status) (ok : Bool)
    (h : s ≠ Status.Unknown) :
    (t.setStatus s).mStatus = s ∧
    (t.setStatus s).mLifeCycle = LifeCycle.Asserted ∧
    t.pass = t.setStatus Status.Passed ∧
    t.fail = t.setStatus Status.Failed ∧
    t.skip = t.setStatus Status.Skipped ∧
    t.expire = t.setStatus Status.Expired ∧
    t.setPassOrFail ok =
      t.setStatus (if ok then Status.Passed else Status.Failed) := by
  refine ⟨?_, ?_, rfl, rfl, rfl, rfl, rfl⟩ <;>
    simp [Test.setStatus, Test.setLifeCycle, h]

/-- Witness for C2 at a concrete constructed test and `s = Passed`. -/
theorem C2_setStatus_only_path_witness :
    Status.Passed ≠ Status.Unknown ∧
    ((Test.init initialGlobalState "a").2.setStatus Status.Passed).mStatus =
      Status.Passed :=
  ⟨by decide,
   (C2_setStatus_only_path (Test.init initialGlobalState "a").2
      Status.Passed true (by decide)).1⟩

/-- Claim C5: on a fresh test (`lifeCycle == New`, `status == Unknown`), the
exclude operation followed by the include operation returns the test to
`lifeCycle == New` and `status == Unknown`. -/
theorem C5_exclude_include_round_trip (t : Test)
    (_h1 : t.mLifeCycle = LifeCycle.New) (h2 : t.mStatus = Status.Unknown) :
    (includeTest (exclude t)).mLifeCycle = LifeCycle.New ∧
    (includeTest (exclude t)).mStatus = Status.Unknown := by
  simp [includeTest, exclude, Test.setLifeCycle, h2]

/-- Witness for C5 at a freshly constructed test. -/
theorem C5_exclude_include_round_trip_witness :
    (Test.init initialGlobalState "a").2.mLifeCycle = LifeCycle.New ∧
    (Test.init initialGlobalState "a").2.mStatus = Status.Unknown ∧
    (includeTest (exclude (Test.init initialGlobalState "a").2)).mLifeCycle =
      LifeCycle.New :=
  ⟨rfl, rfl,
   (C5_exclude_include_round_trip (Test.init initialGlobalState "a").2
      rfl rfl).1⟩

/-- Claim C6: `setPassOrFail true` yields status `Passed`, `setPassOrFail
false` yields status `Failed`, and both move the life cycle to `Asserted`. -/
theorem C6_setPassOrFail (t : Test) :
    (t.setPassOrFail true).mStatus = Status.Passed ∧
    (t.setPassOrFail false).mStatus = Status.Failed ∧
    (t.setPassOrFail true).mLifeCycle = LifeCycle.Asserted ∧
    (t.setPassOrFail false).mLifeCycle = LifeCycle.Asserted := by
  simp [Test.setPassOrFail, Test.setStatus, Test.setLifeCycle]

/-- Claim C9: `setStatus Unknown` sets the status to `Unknown` while leaving
the life cycle unchanged; in particular `pass()` followed by
`setStatus Unknown` leaves status `Unknown` with life cycle `Asserted`. -/
theorem C9_setStatus_unknown (t : Test) :
    (t.setStatus Status.Unknown).mStatus = Status.Unknown ∧
    (t.setStatus Status.Unknown).mLifeCycle = t.mLifeCycle ∧
    (t.pass.setStatus Status.Unknown).mStatus = Status.Unknown ∧
    (t.pass.setStatus Status.Unknown).mLifeCycle = LifeCycle.Asserted := by
  simp [Test.setStatus, Test.setLifeCycle, Test.pass]

/-- Claim C10: at most one of `isPassed`, `isFailed`, `isSkipped`,
`isExpired` is true; `isDone` is true iff exactly one of them is; and each
negated predicate is the boolean negation of its positive counterpart. -/
theorem C10_status_predicates (t : Test) :
    ((if t.isPassed then 1 else 0) + (if t.isFailed then 1 else 0) +
       (if t.isSkipped then 1 else 0) + (if t.isExpired then 1 else 0) : Nat)
      ≤ 1 ∧
    (t.isDone = true ↔
      ((if t.isPassed then 1 else 0) + (if t.isFailed then 1 else 0) +
         (if t.isSkipped then 1 else 0) + (if t.isExpired then 1 else 0) :
        Nat) = 1) ∧
    t.isNotDone = !t.isDone ∧
    t.isNotPassed = !t.isPassed ∧
    t.isNotFailed = !t.isFailed ∧
    t.isNotSkipped = !t.isSkipped ∧
    t.isNotExpired = !t.isExpired := by
  rcases t with ⟨n, lc, s, v⟩
  cases s <;>
    simp [Test.isDone, Test.isNotDone, Test.isPassed, Test.isNotPassed,
      Test.isFailed, Test.isNotFailed, Test.isSkipped, Test.isNotSkipped,
      Test.isExpired, Test.isNotExpired]

/-- Counterexample to claim C1 as stated: `setLifeCycle` is a public
operation, and calling it with `Asserted` on a freshly constructed test
leaves `status == Unknown` with `lifeCycle == Asserted`, breaking the
biconditional. -/
theorem C1_counterexample :
    ¬ testInvariant (applyOps (Test.init initialGlobalState "a").2
        [TestOp.opSetLifeCycle LifeCycle.Asserted]) := by
  decide

/-- Claim C1 (amended): for every constructed test, the biconditional
invariant `status != Unknown ↔ lifeCycle == Asserted` holds after every
sequence of sanctioned public operations — `setStatus` with a non-`Unknown`
argument, `setPassOrFail`, `pass`, `fail`, `skip`, `expire`, exclude from
`New` and include from `Excluded` — but not raw `setLifeCycle` or
`setStatus(Unknown)`, which break it. -/
theorem C1_invariant (g : GlobalState) (name : String) (ops : List TestOp)
    (hseq : supportedSeq (Test.init g name).2 ops = true) :
    testInvariant (applyOps (Test.init g name).2 ops) := by
  have hstart : testInvariant (Test.init g name).2 := by
    simp [Test.init, testInvariant]
  have main : ∀ (l : List TestOp) (t : Test), testInvariant t →
      supportedSeq t l = true → testInvariant (applyOps t l) := by
    intro l
    induction l with
    | nil => intro t h _; simpa [applyOps] using h
    | cons op l ih =>
        intro t h hs
        rw [supportedSeq, Bool.and_eq_true] at hs
        have hstep := supportedOp_preserves_invariant t op h hs.1
        simpa [applyOps] using ih (applyOp t op) hstep hs.2
  exact main ops (Test.init g name).2 hstart hseq

/-- Witness for C1 on a concrete sanctioned sequence:
exclude, include, then pass. -/
theorem C1_invariant_witness :
    supportedSeq (Test.init initialGlobalState "a").2
        [TestOp.opExclude, TestOp.opInclude, TestOp.opPass] = true ∧
    testInvariant (applyOps (Test.init initialGlobalState "a").2
        [TestOp.opExclude, TestOp.opInclude, TestOp.opPass]) :=
  ⟨by decide,
   C1_invariant initialGlobalState "a"
     [TestOp.opExclude, TestOp.opInclude, TestOp.opPass] (by decide)⟩

/-- Counterexample to claim C3 as stated: on a test whose mask already has
the flag set (mask 1, flag 1), `enableVerbosity 1` then `disableVerbosity 1`
clears the flag instead of restoring the original mask. -/
theorem C3_counterexample :
    ¬ ((((Test.init initialGlobalState "a").2.enableVerbosity
            1).enableVerbosity 1).disableVerbosity 1).mVerbosity =
        ((Test.init initialGlobalState "a").2.enableVerbosity 1).mVerbosity := by
  decide

/-- Claim C3 (amended): `enableVerbosity v` followed by `disableVerbosity v`
restores the original verbosity mask `m` provided no bit of `v` is already
set in `m` (`m &&& v == 0`); when bits of `v` are already set in `m`, the
round trip clears them. -/
theorem C3_enable_disable_verbosity (t : Test) (v : Nat)
    (hm : t.mVerbosity < 256) (hv : v < 256)
    (hdisj : t.mVerbosity &&& v = 0) :
    ((t.enableVerbosity v).disableVerbosity v).mVerbosity = t.mVerbosity := by
  simpa [Test.enableVerbosity, Test.disableVerbosity] using
    lor_and_compl8 t.mVerbosity v hm hv hdisj

/-- Witness for C3 at a fresh test (mask 0) and flag 1. -/
theorem C3_enable_disable_verbosity_witness :
    (Test.init initialGlobalState "a").2.mVerbosity < 256 ∧
    (1 : Nat) < 256 ∧
    (Test.init initialGlobalState "a").2.mVerbosity &&& 1 = 0 ∧
    (((Test.init initialGlobalState "a").2.enableVerbosity
        1).disableVerbosity 1).mVerbosity =
      (Test.init initialGlobalState "a").2.mVerbosity :=
  ⟨by decide, by decide, by decide,
   C3_enable_disable_verbosity (Test.init initialGlobalState "a").2 1
     (by decide) (by decide) (by decide)⟩

/-- Claim C7: each of the ten checking-form predicates is a pure read of the
target's status field: two tests with the same status (whatever their
names, life cycles and verbosity masks) get identical results from all
ten. -/
theorem C7_check_predicates_pure (t1 t2 : Test)
    (h : t1.mStatus = t2.mStatus) :
    checkTestDone t1 = checkTestDone t2 ∧
    checkTestNotDone t1 = checkTestNotDone t2 ∧
    checkTestPass t1 = checkTestPass t2 ∧
    checkTestNotPass t1 = checkTestNotPass t2 ∧
    checkTestFail t1 = checkTestFail t2 ∧
    checkTestNotFail t1 = checkTestNotFail t2 ∧
    checkTestSkip t1 = checkTestSkip t2 ∧
    checkTestNotSkip t1 = checkTestNotSkip t2 ∧
    checkTestExpire t1 = checkTestExpire t2 ∧
    checkTestNotExpire t1 = checkTestNotExpire t2 := by
  simp [checkTestDone, checkTestNotDone, checkTestPass, checkTestNotPass,
    checkTestFail, checkTestNotFail, checkTestSkip, checkTestNotSkip,
    checkTestExpire, checkTestNotExpire, Test.isDone, Test.isNotDone,
    Test.isPassed, Test.isNotPassed, Test.isFailed, Test.isNotFailed,
    Test.isSkipped, Test.isNotSkipped, Test.isExpired, Test.isNotExpired, h]

/-- Witness for C7: two tests differing in every field except status. -/
theorem C7_check_predicates_pure_witness :
    (⟨"x", LifeCycle.Asserted, Status.Passed, 3⟩ : Test).mStatus =
      (⟨"y", LifeCycle.Setup, Status.Passed, 0⟩ : Test).mStatus ∧
    checkTestPass ⟨"x", LifeCycle.Asserted, Status.Passed, 3⟩ =
      checkTestPass ⟨"y", LifeCycle.Setup, Status.Passed, 0⟩ :=
  ⟨rfl,
   (C7_check_predicates_pure ⟨"x", LifeCycle.Asserted, Status.Passed, 3⟩
      ⟨"y", LifeCycle.Setup, Status.Passed, 0⟩ rfl).2.2.1⟩

/-- Claim C8: registration updates the max-name-length tracker to the max of
its current value and the new name's length; and registering three names of
lengths 3, 10 and 5 in any order starting from the initial state leaves the
tracker at 10. -/
theorem C8_maxLength_tracker (g : GlobalState) (name : String)
    (n1 n2 n3 : String)
    (h : List.Perm [n1.length, n2.length, n3.length] [3, 10, 5]) :
    (Test.init g name).1.maxLength = Nat.max g.maxLength name.length ∧
    (registerAll initialGlobalState [n1, n2, n3]).maxLength = 10 := by
  refine ⟨rfl, ?_⟩
  rw [registerAll_maxLength]
  simp only [List.map, initialGlobalState]
  rw [foldl_max_perm h 0]
  decide

/-- Witness for C8 with names of lengths 5, 3, 10 (a non-trivial order). -/
theorem C8_maxLength_tracker_witness :
    List.Perm ["defgh".length, "abc".length, "abcdefghij".length]
      [3, 10, 5] ∧
    (registerAll initialGlobalState
        ["defgh", "abc", "abcdefghij"]).maxLength = 10 :=
  ⟨by decide,
   (C8_maxLength_tracker initialGlobalState "a" "defgh" "abc" "abcdefghij"
      (by decide)).2⟩

/-- Claim C4: when the asserting form of a meta-assertion runs and the
predicate on the target test evaluates to false, the calling test's status
is set to `Failed` through `setStatus` (so its life cycle becomes
`Asserted`), a diagnostic naming the caller's source location, the target
test's name and the expected-condition message is emitted, and the body
returns immediately: the result is the same whatever statements follow. -/
theorem C4_assert_failure (st : MetaState) (file : String) (line : Nat)
    (target : Test) (method : Test → Bool) (message : String)
    (rest : List Stmt) (h : method target = false) :
    (runBody st
        (Stmt.metaAssert file line target method message ::
          rest)).caller.mStatus = Status.Failed ∧
    (runBody st
        (Stmt.metaAssert file line target method message ::
          rest)).caller.mLifeCycle = LifeCycle.Asserted ∧
    (runBody st
        (Stmt.metaAssert file line target method message :: rest)).output =
      st.output ++ [⟨file, line, target.mName, message⟩] ∧
    ∀ rest2 : List Stmt,
      runBody st (Stmt.metaAssert file line target method message :: rest2) =
        runBody st (Stmt.metaAssert file line target method message ::
          rest) := by
  simp [runBody, assertionTestStatus, h, Test.setStatus, Test.setLifeCycle]

/-- Witness for C4, mirroring the spec's end-to-end scenario: test A fails
itself, then test B's body asserts "A is passed" followed by a statement
that would pass B; B ends `Failed` with the diagnostic emitted, so the
following statement never ran. -/
theorem C4_assert_failure_witness :
    Test.isPassed (Test.fail (Test.init initialGlobalState "A").2) = false ∧
    (runBody
        ⟨(Test.init (Test.init initialGlobalState "A").1 "B").2, []⟩
        [Stmt.metaAssert "B.ino" 10
            (Test.fail (Test.init initialGlobalState "A").2)
            Test.isPassed "is passed",
          Stmt.action (fun s => ⟨s.caller.pass, s.output⟩)]).caller.mStatus =
      Status.Failed :=
  ⟨rfl,
   (C4_assert_failure
      ⟨(Test.init (Test.init initialGlobalState "A").1 "B").2, []⟩
      "B.ino" 10 (Test.fail (Test.init initialGlobalState "A").2)
      Test.isPassed "is passed"
      [Stmt.action (fun s => ⟨s.caller.pass, s.output⟩)] rfl).1⟩

end AUnit
